import Mathlib

/-!
Shallow embedding of the resumable-upload bridge in
src/pserver/gcloudstorage/storage.py and verification of its specification.

The embedding models the state-relevant behaviour of the Python source:

* GCloudFile with its mutable attributes (attributes that may be unset are
  Option-valued; Python None and a missing attribute are both modelled as
  none, matching the hasattr/None guards in the source);
* appendData, initUpload, finishUpload, actualSize, the size property;
* the tus_create / tus_patch / tus_head protocol adapter operations,
  including the chunk retry loop of tus_patch (modelled with explicit fuel,
  a scripted list of backend responses, and the client stream as a list of
  bytes);
* backend calls and client reads are recorded as an event trace so that
  statements of the form "no backend call is made" are expressible.

Numeric header values are Int (Python int); byte strings are List Nat.
-/

namespace GCloud

/-- MAX_RETRIES constant (storage.py line 57). -/
def MAX_RETRIES : Nat := 5

/-- CHUNK_SIZE constant (storage.py line 56). -/
def CHUNK_SIZE : Nat := 524288

/-- Observable effects: backend HTTP calls and reads from the client stream.
clientRead records the requested byte count (the readexactly argument) and
the number of bytes actually delivered. -/
inductive Ev where
  | putChunk (range : String) (len : Nat)
  | deleteObject (key : String)
  | postSession
  | clientRead (requested : Nat) (got : Nat)
deriving DecidableEq, Repr

/-- Outcome of a best-effort backend delete: the request either succeeds or
raises errors.HttpError. The source wraps every such delete in
try/except errors.HttpError: pass, so this outcome is always swallowed. -/
inductive DeleteOutcome where
  | ok
  | httpError
deriving DecidableEq, Repr

/-- Decimal digits to Nat, as Python int() reads them. -/
def decDigits (ds : List Char) : Nat :=
  ds.foldl (fun n c => n * 10 + (c.toNat - 48)) 0

/-- Python int() on a decimal string (optional leading minus). Malformed
strings (which make Python raise ValueError) are out of scope: every claim
below evaluates it on well-formed decimal strings only. -/
def pyInt (s : String) : Int :=
  match s.toList with
  | '-' :: ds => - (Int.ofNat (decDigits ds))
  | ds => Int.ofNat (decDigits ds)

/-- Python str.split with a single-character separator. -/
def pySplitChar (sep : Char) (s : String) : List String :=
  (s.toList.splitOn sep).map List.asString

/-- The parse int(call.headers[Range].split(chr45)[1]) performed on a 308
response (storage.py line 412): the second dash-separated field of the
acknowledged-range header. -/
def parseRangeOffset (s : String) : Int :=
  pyInt ((pySplitChar '-' s).getD 1 "")

/-- Python slicing data[k:] for an integer k as used at storage.py line 230:
a nonnegative start drops that many leading elements, a negative start keeps
the last -k elements. -/
def pyDrop (k : Int) (xs : List Nat) : List Nat :=
  if 0 ≤ k then xs.drop k.toNat
  else xs.drop (xs.length - (-k).toNat)

/-- The persistent GCloudFile object (storage.py 325 ff). Attributes that the
source guards with hasattr or None checks are Option-valued. -/
structure GCloudFile where
  contentType : String
  filename : Option String
  _current_upload : Int
  _size : Option Int
  _md5hash : Option String
  _extension : Option String
  _upload_file_id : Option String
  _uri : Option String
  _resumable_uri : Option String
  _resumable_uri_date : Option Int
deriving DecidableEq, Repr

/-- GCloudFile(contentType=...) with no filename argument
(storage.py 331-343): only contentType and _current_upload are set. -/
def GCloudFile.new (ct : String) : GCloudFile :=
  { contentType := ct, filename := none, _current_upload := 0, _size := none,
    _md5hash := none, _extension := none, _upload_file_id := none,
    _uri := none, _resumable_uri := none, _resumable_uri_date := none }

/-- size property (storage.py 465-470): None when _size is absent. -/
def GCloudFile.size (f : GCloudFile) : Option Int := f._size

/-- actualSize (storage.py 418-419). -/
def GCloudFile.actualSize (f : GCloudFile) : Int := f._current_upload

/-- Python truthiness of the size property value (an optional int):
None and 0 are falsy. -/
def pyTruthy : Option Int → Bool
  | none => false
  | some n => n != 0

/-- One backend answer to a chunk PUT: its HTTP status and the value of its
Range header (only read when the status is 308). -/
structure BackendResp where
  status : Nat
  rangeHeader : String
deriving DecidableEq, Repr

/-- The content_range string built at storage.py 397-400. -/
def contentRange (init : Int) (len : Nat) (total : Int) : String :=
  "bytes " ++ toString init ++ "-" ++ toString (init + (len : Int) - 1) ++
    "/" ++ toString total

/-- appendData (storage.py 394-416). Needs _size (for content_range and the
200/201 branch) and _resumable_uri (the PUT target); a missing attribute is
an AttributeError, modelled as none. On 308 the offset becomes the parsed
Range header value; on 200/201 it becomes _size; otherwise it is unchanged.
Returns the updated file and the emitted chunk PUT event. -/
def GCloudFile.appendData (f : GCloudFile) (data : List Nat) (r : BackendResp) :
    Option (GCloudFile × Ev) :=
  match f._size, f._resumable_uri with
  | some sz, some _ =>
    let putEv := Ev.putChunk (contentRange f._current_upload data.length sz) data.length
    let f1 := if r.status = 308 then
        { f with _current_upload := parseRangeOffset r.rangeHeader }
      else f
    let f2 := if r.status = 200 ∨ r.status = 201 then
        { f1 with _current_upload := sz }
      else f1
    some (f2, putEv)
  | _, _ => none

/-- finishUpload (storage.py 421-435): best-effort delete of the previously
committed object (_uri) with any errors.HttpError swallowed, then swap the
pending key into _uri and clear the pending key. The DeleteOutcome argument
is the fate of the delete request; the except clause discards it. -/
def GCloudFile.finishUpload (f : GCloudFile) (delOut : DeleteOutcome) :
    GCloudFile × List Ev :=
  let delEvs := match f._uri with
    | some k => [Ev.deleteObject k]
    | none => []
  ({ f with _uri := f._upload_file_id, _upload_file_id := none }, delEvs)

/-- The backend answer to the session-creation POST of initUpload. -/
structure InitResp where
  status : Nat
  body : String
  location : String
deriving DecidableEq, Repr

/-- Result of initUpload: err is the GoogleCloudException body when the
session POST came back with a status other than 200; the file state reflects
the mutations performed before a raise (the new pending id is assigned
before the POST). -/
structure InitResult where
  err : Option String
  file : GCloudFile
  evs : List Ev
deriving DecidableEq, Repr

/-- initUpload (storage.py 345-392): opportunistic delete of a previous
pending object (errors.HttpError swallowed, DeleteOutcome discarded), new
pending object key, session-creation POST; on a non-200 status raise
GoogleCloudException(text) where text is the response body; on 200 store
the Location header as _resumable_uri, reset _current_upload to 0 and
record the session date. -/
def GCloudFile.initUpload (f : GCloudFile) (newId : String) (resp : InitResp)
    (now : Int) (delOut : DeleteOutcome) : InitResult :=
  let delEvs := match f._upload_file_id with
    | some k => [Ev.deleteObject k]
    | none => []
  let f1 := { f with _upload_file_id := some newId }
  if resp.status ≠ 200 then
    { err := some resp.body, file := f1, evs := delEvs ++ [Ev.postSession] }
  else
    let f2 := { f1 with _resumable_uri := some resp.location,
                        _current_upload := 0,
                        _resumable_uri_date := some now }
    { err := none, file := f2, evs := delEvs ++ [Ev.postSession] }

/-- readexactly(n) with asyncio.IncompleteReadError caught and e.partial
used instead (storage.py 213-216, 254-257): yields up to n bytes and the
rest of the stream. -/
def readExactly (n : Nat) (stream : List Nat) : List Nat × List Nat :=
  (stream.take n, stream.drop n)

/-- State carried around the while loop of tus_patch (storage.py 218-262):
the file, the buffered chunk data, the remaining client stream, and the
retry counter. -/
structure PatchState where
  file : GCloudFile
  data : List Nat
  stream : List Nat
  count : Nat
deriving DecidableEq, Repr

/-- Result of one iteration of the tus_patch while body: break out of the
loop, loop again, raise the MAX retries error, or raise AttributeError
from appendData. -/
inductive IterOut where
  | brk (s : PatchState) (evs : List Ev)
  | next (s : PatchState) (evs : List Ev)
  | raiseMax (s : PatchState) (evs : List Ev)
  | attrMiss (evs : List Ev)
deriving DecidableEq, Repr

/-- One iteration of the tus_patch while body (storage.py 218-262), given the
backend response r to this appendData call. Mirrors the source line by line:
readed_bytes is the offset delta for 200/201 and the delta plus one
otherwise; the consumed prefix is sliced off; on 200/201 finishUpload runs
and data becomes None (empty); then the chain of break conditions; on 308
len(data) more bytes are read from the client and appended; otherwise the
retry counter is bumped and checked against MAX_RETRIES. -/
def patchIter (delOut : DeleteOutcome) (r : BackendResp) (s : PatchState) : IterOut :=
  match s.file.appendData s.data r with
  | none => IterOut.attrMiss []
  | some fe =>
    let f1 := fe.1
    let old := s.file._current_upload
    let isDone := r.status = 200 ∨ r.status = 201
    let readed : Int :=
      if isDone then f1._current_upload - old else f1._current_upload - old + 1
    let data1 := pyDrop readed s.data
    let bytesToRead := data1.length
    let fin := f1.finishUpload delOut
    let f2 := if isDone then fin.1 else f1
    let finEvs := if isDone then fin.2 else []
    let data2 := if isDone then ([] : List Nat) else data1
    let evs0 := fe.2 :: finEvs
    if bytesToRead = 0 then IterOut.brk ⟨f2, data2, s.stream, s.count⟩ evs0
    else if bytesToRead < 262144 then IterOut.brk ⟨f2, data2, s.stream, s.count⟩ evs0
    else if r.status = 400 then IterOut.brk ⟨f2, data2, s.stream, s.count⟩ evs0
    else if r.status = 308 then
      let re := readExactly bytesToRead s.stream
      IterOut.next ⟨f2, data2 ++ re.1, re.2, 0⟩
        (evs0 ++ [Ev.clientRead bytesToRead re.1.length])
    else if MAX_RETRIES < s.count + 1 then
      IterOut.raiseMax ⟨f2, data2, s.stream, s.count + 1⟩ evs0
    else IterOut.next ⟨f2, data2, s.stream, s.count + 1⟩ evs0

/-- Overall outcome of the tus_patch while loop. finished covers both a
break and the loop condition turning false; maxRetries is the raised
AttributeError for exceeded retries; attrFail an AttributeError from
appendData; noResp and outOfFuel are model artifacts (the scripted backend
responses or the fuel ran out while the loop wanted to go on). -/
inductive LoopOut where
  | finished (s : PatchState) (evs : List Ev)
  | maxRetries (s : PatchState) (evs : List Ev)
  | attrFail (evs : List Ev)
  | noResp (evs : List Ev)
  | outOfFuel (evs : List Ev)
deriving DecidableEq, Repr

/-- Prepend already-emitted events to the trace of a loop outcome. -/
def prependEvs (evs : List Ev) : LoopOut → LoopOut
  | LoopOut.finished s e => LoopOut.finished s (evs ++ e)
  | LoopOut.maxRetries s e => LoopOut.maxRetries s (evs ++ e)
  | LoopOut.attrFail e => LoopOut.attrFail (evs ++ e)
  | LoopOut.noResp e => LoopOut.noResp (evs ++ e)
  | LoopOut.outOfFuel e => LoopOut.outOfFuel (evs ++ e)

/-- The while loop of tus_patch (storage.py 218-262), driven by a scripted
list of backend responses and bounded by fuel. The guard (while data) is
checked before each iteration. -/
def patchLoop (delOut : DeleteOutcome) : Nat → List BackendResp → PatchState → LoopOut
  | 0, _, s => if s.data.isEmpty then LoopOut.finished s [] else LoopOut.outOfFuel []
  | fuel + 1, resps, s =>
    if s.data.isEmpty then LoopOut.finished s []
    else
      match resps with
      | [] => LoopOut.noResp []
      | r :: rest =>
        match patchIter delOut r s with
        | IterOut.brk s1 evs => LoopOut.finished s1 evs
        | IterOut.raiseMax s1 evs => LoopOut.maxRetries s1 evs
        | IterOut.attrMiss evs => LoopOut.attrFail evs
        | IterOut.next s1 evs => prependEvs evs (patchLoop delOut fuel rest s1)

/-- The two headers tus_patch requires (storage.py 204-212). A field is none
when the header is absent from the request. -/
structure TusPatchHeaders where
  contentLength : Option Int
  uploadOffset : Option Int
deriving DecidableEq, Repr

/-- The errors tus_patch can raise (all AttributeError in the source). -/
inductive PatchErr where
  | noContentLength
  | noUploadOffset
  | maxRetries
  | noneFile
  | attrMissing
deriving DecidableEq, Repr

/-- The headers of a successful tus_patch response (storage.py 265-271). -/
structure PatchResp where
  uploadOffset : Int
  uploadExpires : Int
deriving DecidableEq, Repr

/-- Result of tus_patch, with the trace of backend calls and client reads. -/
inductive PatchOut where
  | ok (f : GCloudFile) (resp : PatchResp) (evs : List Ev)
  | err (e : PatchErr) (evs : List Ev)
  | incomplete (evs : List Ev)
deriving DecidableEq, Repr

/-- tus_patch (storage.py 202-271): header validation, the initial
readexactly of the declared byte count (short reads accepted via the caught
IncompleteReadError), the retry loop, then the response whose Upload-Offset
is actualSize() and whose Upload-Expires is the session date plus 7 days
(604800 seconds). Setting _current_upload on a None file is the
AttributeError noneFile. -/
def tus_patch (file? : Option GCloudFile) (hs : TusPatchHeaders)
    (stream : List Nat) (resps : List BackendResp) (fuel : Nat)
    (delOut : DeleteOutcome) : PatchOut :=
  match hs.contentLength with
  | none => PatchOut.err PatchErr.noContentLength []
  | some toUpload =>
    match hs.uploadOffset, file? with
    | none, _ => PatchOut.err PatchErr.noUploadOffset []
    | some _, none => PatchOut.err PatchErr.noneFile []
    | some off, some f0 =>
      let f := { f0 with _current_upload := off }
      let re := readExactly toUpload.toNat stream
      match patchLoop delOut fuel resps ⟨f, re.1, re.2, 0⟩ with
      | LoopOut.finished s evs =>
        match s.file._resumable_uri_date with
        | none => PatchOut.err PatchErr.attrMissing evs
        | some d => PatchOut.ok s.file ⟨s.file.actualSize, d + 604800⟩ evs
      | LoopOut.maxRetries _ evs => PatchOut.err PatchErr.maxRetries evs
      | LoopOut.attrFail evs => PatchOut.err PatchErr.attrMissing evs
      | LoopOut.noResp evs => PatchOut.incomplete evs
      | LoopOut.outOfFuel evs => PatchOut.incomplete evs

/-- The headers tus_create reads (storage.py 159-192). -/
structure TusCreateHeaders where
  methodOverride : Option String
  contentLength : Option Int
  uploadLength : Option Int
  uploadMd5 : Option String
  uploadExtension : Option String
  tusResumable : Option String
  uploadMetadata : Option String
deriving DecidableEq, Repr

/-- The errors tus_create can raise. -/
inductive CreateErr where
  | noUploadLength
  | noTusVersion
  | gcloud (body : String)
deriving DecidableEq, Repr

/-- Result of tus_create: delegated to tus_patch, a 201 created response
with the Location header, or an error; with the event trace. -/
inductive CreateOut where
  | patched (r : PatchOut)
  | created (f : GCloudFile) (location : String) (evs : List Ev)
  | err (e : CreateErr) (evs : List Ev)
deriving DecidableEq, Repr

/-- tus_create (storage.py 159-200). The X-HTTP-Method-Override check comes
first and delegates the whole request to tus_patch. Otherwise: create the
file if absent, set _current_upload from CONTENT-LENGTH (default 0), require
UPLOAD-LENGTH into _size, optionally take UPLOAD-MD5 and UPLOAD-EXTENSION,
require TUS-RESUMABLE, compute the filename from UPLOAD-METADATA (second
whitespace-separated token, base64-decoded via the b64 parameter) or the
generated token genName, run initUpload, and answer 201 with the Location
header. newId is the generated pending object key, now the session date,
baseUrl and fieldName build the Location value. -/
def tus_create (file? : Option GCloudFile) (reqContentType : String)
    (chs : TusCreateHeaders) (phs : TusPatchHeaders) (stream : List Nat)
    (resps : List BackendResp) (fuel : Nat) (delOut : DeleteOutcome)
    (newId : String) (genName : String) (b64 : String → String)
    (initResp : InitResp) (now : Int) (baseUrl : String)
    (fieldName : String) : CreateOut :=
  if chs.methodOverride = some "PATCH" then
    CreateOut.patched (tus_patch file? phs stream resps fuel delOut)
  else
    let f0 := match file? with
      | some f => f
      | none => GCloudFile.new reqContentType
    let f1 := { f0 with _current_upload := chs.contentLength.getD 0 }
    match chs.uploadLength with
    | none => CreateOut.err CreateErr.noUploadLength []
    | some len =>
      let f2 := { f1 with _size := some len }
      let f3 := match chs.uploadMd5 with
        | some m => { f2 with _md5hash := some m }
        | none => f2
      let f4 := match chs.uploadExtension with
        | some e => { f3 with _extension := some e }
        | none => f3
      match chs.tusResumable with
      | none => CreateOut.err CreateErr.noTusVersion []
      | some _ =>
        let fname := match chs.uploadMetadata with
          | none => genName
          | some m => b64 ((pySplitChar ' ' m).getD 1 "")
        let f5 := { f4 with filename := some fname }
        let r := f5.initUpload newId initResp now delOut
        match r.err with
        | some body => CreateOut.err (CreateErr.gcloud body) r.evs
        | none => CreateOut.created r.file (baseUrl ++ "/@tusupload/" ++ fieldName) r.evs

/-- tus_head error: KeyError when no file exists on the context. -/
inductive HeadErr where
  | noFile
deriving DecidableEq, Repr

/-- The offset and optional length headers of a tus_head response. -/
structure HeadResp where
  uploadOffset : Int
  uploadLength : Option Int
deriving DecidableEq, Repr

/-- tus_head (storage.py 273-285): Upload-Offset is actualSize(); the
Upload-Length header is added only when the size property value is truthy
(so a known size of 0 is omitted). -/
def tus_head (file? : Option GCloudFile) : Except HeadErr HeadResp :=
  match file? with
  | none => Except.error HeadErr.noFile
  | some f =>
    Except.ok { uploadOffset := f.actualSize,
                uploadLength := if pyTruthy f.size then f._size else none }

/-- Modelled from the spec: the number of bytes the backend has durably
accepted when it answers 308 with an acknowledged-range header of the form
bytes=0-N, namely N plus 1 (the header names the last accepted zero-based
byte index). The source itself records this relationship: the comment at
storage.py 226 says the gcloud current_upload is one number less, and
tus_patch compensates with readed_bytes = delta + 1 at line 227. -/
def ackedBytes (r : BackendResp) : Int :=
  parseRangeOffset r.rangeHeader + 1

/-- Sequential composition of successful appendData calls (the data argument
does not influence the offset bookkeeping, so it is passed empty). -/
def appendSeq (f : GCloudFile) : List BackendResp → Option GCloudFile
  | [] => some f
  | r :: rs =>
    match f.appendData [] r with
    | some fe => appendSeq fe.1 rs
    | none => none

/-- A 308 response is within bounds for the current offset: its acknowledged
range value is at least the current offset and at most the declared size.
Non-308 responses are unconstrained. -/
def respOkB (sz cur : Int) (r : BackendResp) : Bool :=
  r.status != 308 ||
    (decide (cur ≤ parseRangeOffset r.rangeHeader) &&
     decide (parseRangeOffset r.rangeHeader ≤ sz))

/-- Every response in the list is within bounds at the state it is applied
to. -/
def okSeqB (sz : Int) (f : GCloudFile) : List BackendResp → Bool
  | [] => true
  | r :: rs =>
    respOkB sz f._current_upload r &&
      (match f.appendData [] r with
       | some fe => okSeqB sz fe.1 rs
       | none => true)

/-- Is this event a chunk PUT? -/
def Ev.isPut : Ev → Bool
  | Ev.putChunk _ _ => true
  | _ => false

/-- Numeric tag of an event kind: 0 chunk PUT, 1 delete, 2 client read,
3 session POST. -/
def evKind : Ev → Nat
  | Ev.putChunk _ _ => 0
  | Ev.deleteObject _ => 1
  | Ev.clientRead _ _ => 2
  | Ev.postSession => 3

/-- The event trace of a loop outcome. -/
def LoopOut.evs : LoopOut → List Ev
  | LoopOut.finished _ e => e
  | LoopOut.maxRetries _ e => e
  | LoopOut.attrFail e => e
  | LoopOut.noResp e => e
  | LoopOut.outOfFuel e => e

/-- Did the loop raise the MAX retries error? -/
def LoopOut.isMaxRetries : LoopOut → Bool
  | LoopOut.maxRetries _ _ => true
  | _ => false

/-- The accepted offset of the file in the final loop state, when the loop
ended in a state-carrying outcome. -/
def LoopOut.fileOffset : LoopOut → Option Int
  | LoopOut.finished s _ => some s.file._current_upload
  | LoopOut.maxRetries s _ => some s.file._current_upload
  | _ => none

/-- Concrete session used by the C1 theorem: offset 0, declared size 1000, open backend session. -/
def c1File : GCloudFile :=
  { GCloudFile.new "ct" with _size := some 1000,
                             _resumable_uri := some "sess" }

/-- Concrete session used by the C2 theorems: offset 0, declared size 1000000, open backend session. -/
def c2File : GCloudFile :=
  { GCloudFile.new "ct" with _size := some 1000000,
                             _resumable_uri := some "sess",
                             _resumable_uri_date := some 0 }

/-- Concrete session used by the C3 theorems: offset 100, declared size 1000, open backend session. -/
def c3File : GCloudFile :=
  { GCloudFile.new "ct" with _current_upload := 100,
                             _size := some 1000,
                             _resumable_uri := some "sess" }

/-- Concrete session used by the C4 theorems: offset 0, declared size 1000000, open backend session. -/
def c4File : GCloudFile :=
  { GCloudFile.new "ct" with _size := some 1000000,
                             _resumable_uri := some "sess",
                             _resumable_uri_date := some 0 }

lemma isEmpty_eq_decide {α : Type} (l : List α) : l.isEmpty = decide (l.length = 0) := by
  cases l <;> simp

lemma data_nonempty_of_len {l : List Nat} (h : 262145 ≤ l.length) :
    l.isEmpty = false := by
  rw [isEmpty_eq_decide]
  simp only [decide_eq_false_iff_not]
  omega

lemma MAX_RETRIES_eq : MAX_RETRIES = 5 := rfl

lemma appendData_eq (f : GCloudFile) (d : List Nat) (r : BackendResp) (sz : Int)
    (u : String) (hsz : f._size = some sz) (hu : f._resumable_uri = some u) :
    f.appendData d r = some
      ((if r.status = 200 ∨ r.status = 201 then { f with _current_upload := sz }
        else if r.status = 308 then
          { f with _current_upload := parseRangeOffset r.rangeHeader }
        else f),
       Ev.putChunk (contentRange f._current_upload d.length sz) d.length) := by
  unfold GCloudFile.appendData
  rw [hsz, hu]
  by_cases h3 : r.status = 308
  · have hno : ¬ (r.status = 200 ∨ r.status = 201) := by omega
    simp [h3, hno, hsz, hu]
  · by_cases hd : r.status = 200 ∨ r.status = 201
    · simp [h3, hd, hsz, hu]
    · simp [h3, hd, hsz, hu]

lemma prependEvs_isMaxRetries (e : List Ev) (x : LoopOut) :
    (prependEvs e x).isMaxRetries = x.isMaxRetries := by cases x <;> rfl

lemma prependEvs_evs (e : List Ev) (x : LoopOut) :
    (prependEvs e x).evs = e ++ x.evs := by cases x <;> rfl

lemma prependEvs_fileOffset (e : List Ev) (x : LoopOut) :
    (prependEvs e x).fileOffset = x.fileOffset := by cases x <;> rfl

lemma patchLoop_cons (delOut : DeleteOutcome) (fuel : Nat) (r : BackendResp)
    (rest : List BackendResp) (s : PatchState) (hne : s.data.isEmpty = false) :
    patchLoop delOut (fuel + 1) (r :: rest) s =
      match patchIter delOut r s with
      | IterOut.brk s1 evs => LoopOut.finished s1 evs
      | IterOut.raiseMax s1 evs => LoopOut.maxRetries s1 evs
      | IterOut.attrMiss evs => LoopOut.attrFail evs
      | IterOut.next s1 evs => prependEvs evs (patchLoop delOut fuel rest s1) := by
  rw [patchLoop]
  simp [hne]

lemma patchLoop_noResp2 (delOut : DeleteOutcome) (fuel : Nat) (f : GCloudFile)
    (data stream : List Nat) (c : Nat) (hne : data.isEmpty = false) :
    patchLoop delOut (fuel + 1) [] ⟨f, data, stream, c⟩ = LoopOut.noResp [] := by
  rw [patchLoop]
  simp [hne]

lemma patchIter_transient (delOut : DeleteOutcome) (r : BackendResp) (s : PatchState)
    (sz : Int) (u : String)
    (hsz : s.file._size = some sz) (hu : s.file._resumable_uri = some u)
    (h200 : r.status ≠ 200) (h201 : r.status ≠ 201) (h308 : r.status ≠ 308)
    (h400 : r.status ≠ 400) (hlen : 262145 ≤ s.data.length) :
    patchIter delOut r s =
      (if MAX_RETRIES < s.count + 1 then
        IterOut.raiseMax ⟨s.file, s.data.drop 1, s.stream, s.count + 1⟩
          [Ev.putChunk (contentRange s.file._current_upload s.data.length sz) s.data.length]
      else
        IterOut.next ⟨s.file, s.data.drop 1, s.stream, s.count + 1⟩
          [Ev.putChunk (contentRange s.file._current_upload s.data.length sz) s.data.length]) := by
  have hno : ¬ (r.status = 200 ∨ r.status = 201) := by omega
  unfold patchIter
  rw [appendData_eq s.file s.data r sz u hsz hu]
  simp only [hno, h308, if_false, if_neg]
  have hrd : s.file._current_upload - s.file._current_upload + 1 = (1 : Int) := by ring
  rw [hrd]
  have hpd : pyDrop 1 s.data = s.data.drop 1 := by
    simp [pyDrop]
  rw [hpd]
  have hL : (s.data.drop 1).length = s.data.length - 1 := List.length_drop 1 s.data
  rw [hL]
  rw [if_neg (by omega : ¬ (s.data.length - 1 = 0))]
  rw [if_neg (by omega : ¬ (s.data.length - 1 < 262144))]
  rw [if_neg h400]

lemma patchLoop_transient_next (delOut : DeleteOutcome) (r : BackendResp)
    (rest : List BackendResp) (fuel : Nat) (f : GCloudFile)
    (data stream : List Nat) (c : Nat) (sz : Int) (u : String)
    (hsz : f._size = some sz) (hu : f._resumable_uri = some u)
    (h200 : r.status ≠ 200) (h201 : r.status ≠ 201) (h308 : r.status ≠ 308)
    (h400 : r.status ≠ 400) (hlen : 262145 ≤ data.length)
    (hc : c < MAX_RETRIES) :
    patchLoop delOut (fuel + 1) (r :: rest) ⟨f, data, stream, c⟩ =
      prependEvs
        [Ev.putChunk (contentRange f._current_upload data.length sz) data.length]
        (patchLoop delOut fuel rest ⟨f, data.drop 1, stream, c + 1⟩) := by
  rw [patchLoop_cons delOut fuel r rest ⟨f, data, stream, c⟩ (data_nonempty_of_len hlen)]
  rw [patchIter_transient delOut r ⟨f, data, stream, c⟩ sz u hsz hu h200 h201 h308 h400 hlen]
  rw [if_neg (by show ¬ (MAX_RETRIES < c + 1); omega : ¬ (MAX_RETRIES < (⟨f, data, stream, c⟩ : PatchState).count + 1))]

lemma patchLoop_transient_raise (delOut : DeleteOutcome) (r : BackendResp)
    (rest : List BackendResp) (fuel : Nat) (f : GCloudFile)
    (data stream : List Nat) (c : Nat) (sz : Int) (u : String)
    (hsz : f._size = some sz) (hu : f._resumable_uri = some u)
    (h200 : r.status ≠ 200) (h201 : r.status ≠ 201) (h308 : r.status ≠ 308)
    (h400 : r.status ≠ 400) (hlen : 262145 ≤ data.length)
    (hc : MAX_RETRIES ≤ c) :
    patchLoop delOut (fuel + 1) (r :: rest) ⟨f, data, stream, c⟩ =
      LoopOut.maxRetries ⟨f, data.drop 1, stream, c + 1⟩
        [Ev.putChunk (contentRange f._current_upload data.length sz) data.length] := by
  rw [patchLoop_cons delOut fuel r rest ⟨f, data, stream, c⟩ (data_nonempty_of_len hlen)]
  rw [patchIter_transient delOut r ⟨f, data, stream, c⟩ sz u hsz hu h200 h201 h308 h400 hlen]
  rw [if_pos (by show MAX_RETRIES < c + 1; omega : MAX_RETRIES < (⟨f, data, stream, c⟩ : PatchState).count + 1)]

lemma c2_loop (delOut : DeleteOutcome) (rs : List BackendResp)
    (rest : List BackendResp) (fuel : Nat) (f : GCloudFile) (sz : Int) (u : String)
    (data stream : List Nat) (c : Nat)
    (hsz : f._size = some sz) (hu : f._resumable_uri = some u)
    (ht : ∀ r ∈ rs, r.status ≠ 200 ∧ r.status ≠ 201 ∧ r.status ≠ 308 ∧ r.status ≠ 400)
    (hlen : 262144 + rs.length ≤ data.length)
    (hcm : c ≤ MAX_RETRIES)
    (hstep : c + rs.length = MAX_RETRIES + 1) :
    (patchLoop delOut (fuel + rs.length) (rs ++ rest) ⟨f, data, stream, c⟩).isMaxRetries = true ∧
    (patchLoop delOut (fuel + rs.length) (rs ++ rest) ⟨f, data, stream, c⟩).evs.countP Ev.isPut
      = rs.length ∧
    (patchLoop delOut (fuel + rs.length) (rs ++ rest) ⟨f, data, stream, c⟩).fileOffset
      = some f._current_upload := by
  induction rs generalizing data c fuel with
  | nil =>
    rw [MAX_RETRIES_eq] at hcm hstep
    simp at hstep
    omega
  | cons r rs2 ih =>
    obtain ⟨ha, hb, hc3, hd⟩ := ht r (by simp)
    cases rs2 with
    | nil =>
      have hc5 : MAX_RETRIES ≤ c := by
        simp only [List.length_cons, List.length_nil, MAX_RETRIES_eq] at hstep ⊢
        omega
      have hL : 262145 ≤ data.length := by
        simp only [List.length_cons, List.length_nil] at hlen
        omega
      rw [(by simp : (([r] : List BackendResp) ++ rest) = r :: rest)]
      rw [(by simp : ([r] : List BackendResp).length = 1)]
      rw [patchLoop_transient_raise delOut r rest fuel f data stream c sz u
        hsz hu ha hb hc3 hd hL hc5]
      refine ⟨rfl, ?_, rfl⟩
      simp [LoopOut.evs, List.countP_cons, Ev.isPut]
    | cons r2 rs3 =>
      have hlen2 : 262144 + rs3.length + 1 + 1 ≤ data.length := by
        simp only [List.length_cons] at hlen
        omega
      have hstep2 : c + rs3.length + 2 = 6 := by
        simp only [List.length_cons, MAX_RETRIES_eq] at hstep
        omega
      have hlt : c < MAX_RETRIES := by
        rw [MAX_RETRIES_eq]
        omega
      have hL : 262145 ≤ data.length := by omega
      have hfuel : fuel + (r :: r2 :: rs3).length = (fuel + (r2 :: rs3).length) + 1 := by
        simp only [List.length_cons]
        omega
      rw [hfuel]
      rw [(by simp : ((r :: r2 :: rs3) ++ rest) = r :: ((r2 :: rs3) ++ rest))]
      rw [patchLoop_transient_next delOut r ((r2 :: rs3) ++ rest) (fuel + (r2 :: rs3).length)
        f data stream c sz u hsz hu ha hb hc3 hd hL hlt]
      have hmem : ∀ x ∈ r2 :: rs3,
          x.status ≠ 200 ∧ x.status ≠ 201 ∧ x.status ≠ 308 ∧ x.status ≠ 400 :=
        fun x hx => ht x (List.mem_cons_of_mem _ hx)
      have ih2 := ih fuel (data.drop 1) (c + 1) hmem
        (by simp only [List.length_cons, List.length_drop]; omega)
        (by rw [MAX_RETRIES_eq]; omega)
        (by simp only [List.length_cons, MAX_RETRIES_eq]; omega)
      refine ⟨?_, ?_, ?_⟩
      · rw [prependEvs_isMaxRetries]
        exact ih2.1
      · rw [prependEvs_evs, List.countP_append, ih2.2.1]
        simp [Ev.isPut, List.countP_cons]
        omega
      · rw [prependEvs_fileOffset]
        exact ih2.2.2

lemma c2_loop_noraise (delOut : DeleteOutcome) (rs : List BackendResp) (fuel : Nat)
    (f : GCloudFile) (sz : Int) (u : String) (data stream : List Nat) (c : Nat)
    (hsz : f._size = some sz) (hu : f._resumable_uri = some u)
    (ht : ∀ r ∈ rs, r.status ≠ 200 ∧ r.status ≠ 201 ∧ r.status ≠ 308 ∧ r.status ≠ 400)
    (hlen : 262144 + rs.length + 1 ≤ data.length)
    (hcm : c + rs.length ≤ MAX_RETRIES) :
    (patchLoop delOut (fuel + rs.length + 1) rs ⟨f, data, stream, c⟩).isMaxRetries = false ∧
    (patchLoop delOut (fuel + rs.length + 1) rs ⟨f, data, stream, c⟩).evs.countP Ev.isPut
      = rs.length := by
  induction rs generalizing data c fuel with
  | nil =>
    rw [(by simp : fuel + ([] : List BackendResp).length + 1 = fuel + 1)]
    rw [patchLoop_noResp2 delOut fuel f data stream c
      (data_nonempty_of_len (by simp at hlen; omega))]
    exact ⟨rfl, rfl⟩
  | cons r rs2 ih =>
    obtain ⟨ha, hb, hc3, hd⟩ := ht r (by simp)
    have hlen2 : 262144 + rs2.length + 1 + 1 ≤ data.length := by
      simp only [List.length_cons] at hlen
      omega
    have hlt : c < MAX_RETRIES := by
      rw [MAX_RETRIES_eq]
      simp only [List.length_cons, MAX_RETRIES_eq] at hcm
      omega
    have hL : 262145 ≤ data.length := by omega
    have hfuel : fuel + (r :: rs2).length + 1 = (fuel + rs2.length + 1) + 1 := by
      simp only [List.length_cons]
      omega
    rw [hfuel]
    rw [patchLoop_transient_next delOut r rs2 (fuel + rs2.length + 1)
      f data stream c sz u hsz hu ha hb hc3 hd hL hlt]
    have hmem : ∀ x ∈ rs2,
        x.status ≠ 200 ∧ x.status ≠ 201 ∧ x.status ≠ 308 ∧ x.status ≠ 400 :=
      fun x hx => ht x (List.mem_cons_of_mem _ hx)
    have ih2 := ih fuel (data.drop 1) (c + 1) hmem
      (by simp only [List.length_drop]; omega)
      (by simp only [List.length_cons, MAX_RETRIES_eq] at hcm ⊢; omega)
    constructor
    · rw [prependEvs_isMaxRetries]
      exact ih2.1
    · rw [prependEvs_evs, List.countP_append, ih2.2]
      simp [Ev.isPut, List.countP_cons]
      omega

lemma patchIter_continue (delOut : DeleteOutcome) (r : BackendResp) (s : PatchState)
    (sz : Int) (u : String)
    (hsz : s.file._size = some sz) (hu : s.file._resumable_uri = some u)
    (h308 : r.status = 308)
    (hlen : 262144 ≤
      (pyDrop (parseRangeOffset r.rangeHeader - s.file._current_upload + 1) s.data).length) :
    patchIter delOut r s =
      IterOut.next
        ⟨{ s.file with _current_upload := parseRangeOffset r.rangeHeader },
         pyDrop (parseRangeOffset r.rangeHeader - s.file._current_upload + 1) s.data ++
           s.stream.take
             (pyDrop (parseRangeOffset r.rangeHeader - s.file._current_upload + 1) s.data).length,
         s.stream.drop
           (pyDrop (parseRangeOffset r.rangeHeader - s.file._current_upload + 1) s.data).length,
         0⟩
        [Ev.putChunk (contentRange s.file._current_upload s.data.length sz) s.data.length,
         Ev.clientRead
           (pyDrop (parseRangeOffset r.rangeHeader - s.file._current_upload + 1) s.data).length
           (s.stream.take
             (pyDrop (parseRangeOffset r.rangeHeader - s.file._current_upload + 1) s.data).length).length] := by
  have hno : ¬ (r.status = 200 ∨ r.status = 201) := by omega
  have h400 : r.status ≠ 400 := by omega
  unfold patchIter
  rw [appendData_eq s.file s.data r sz u hsz hu]
  simp only [if_neg hno, if_pos h308, if_neg h400, readExactly]
  rw [if_neg (by omega :
    ¬ ((pyDrop (parseRangeOffset r.rangeHeader - s.file._current_upload + 1) s.data).length = 0))]
  rw [if_neg (by omega :
    ¬ ((pyDrop (parseRangeOffset r.rangeHeader - s.file._current_upload + 1) s.data).length < 262144))]
  rfl

lemma patchIter_continue_brk (delOut : DeleteOutcome) (r : BackendResp) (s : PatchState)
    (sz : Int) (u : String)
    (hsz : s.file._size = some sz) (hu : s.file._resumable_uri = some u)
    (h308 : r.status = 308)
    (hlt : (pyDrop (parseRangeOffset r.rangeHeader - s.file._current_upload + 1) s.data).length
      < 262144) :
    patchIter delOut r s =
      IterOut.brk
        ⟨{ s.file with _current_upload := parseRangeOffset r.rangeHeader },
         pyDrop (parseRangeOffset r.rangeHeader - s.file._current_upload + 1) s.data,
         s.stream, s.count⟩
        [Ev.putChunk (contentRange s.file._current_upload s.data.length sz) s.data.length] := by
  have hno : ¬ (r.status = 200 ∨ r.status = 201) := by omega
  unfold patchIter
  rw [appendData_eq s.file s.data r sz u hsz hu]
  simp only [if_neg hno, if_pos h308]
  by_cases hz :
      (pyDrop (parseRangeOffset r.rangeHeader - s.file._current_upload + 1) s.data).length = 0
  · rw [if_pos hz]
  · rw [if_neg hz]
    rw [if_pos hlt]

lemma patchIter_400 (delOut : DeleteOutcome) (r : BackendResp) (s : PatchState)
    (sz : Int) (u : String)
    (hsz : s.file._size = some sz) (hu : s.file._resumable_uri = some u)
    (h400 : r.status = 400) :
    patchIter delOut r s =
      IterOut.brk ⟨s.file, pyDrop 1 s.data, s.stream, s.count⟩
        [Ev.putChunk (contentRange s.file._current_upload s.data.length sz) s.data.length] := by
  have hno : ¬ (r.status = 200 ∨ r.status = 201) := by omega
  have h308 : r.status ≠ 308 := by omega
  unfold patchIter
  rw [appendData_eq s.file s.data r sz u hsz hu]
  simp only [if_neg hno, if_neg h308]
  have hrd : s.file._current_upload - s.file._current_upload + 1 = (1 : Int) := by ring
  rw [hrd]
  by_cases hz : (pyDrop 1 s.data).length = 0
  · rw [if_pos hz]
  · rw [if_neg hz]
    by_cases hlt : (pyDrop 1 s.data).length < 262144
    · rw [if_pos hlt]
    · rw [if_neg hlt]
      rw [if_pos h400]

lemma patchLoop_continue (delOut : DeleteOutcome) (r : BackendResp)
    (rest : List BackendResp) (fuel : Nat) (f : GCloudFile)
    (data stream : List Nat) (c : Nat) (sz : Int) (u : String) (d1 : List Nat)
    (hsz : f._size = some sz) (hu : f._resumable_uri = some u)
    (h308 : r.status = 308) (hne : data.isEmpty = false)
    (hd1 : d1 = pyDrop (parseRangeOffset r.rangeHeader - f._current_upload + 1) data)
    (hlen : 262144 ≤ d1.length) :
    patchLoop delOut (fuel + 1) (r :: rest) ⟨f, data, stream, c⟩ =
      prependEvs
        [Ev.putChunk (contentRange f._current_upload data.length sz) data.length,
         Ev.clientRead d1.length (stream.take d1.length).length]
        (patchLoop delOut fuel rest
          ⟨{ f with _current_upload := parseRangeOffset r.rangeHeader },
           d1 ++ stream.take d1.length, stream.drop d1.length, 0⟩) := by
  subst hd1
  rw [patchLoop_cons delOut fuel r rest ⟨f, data, stream, c⟩ hne]
  rw [patchIter_continue delOut r ⟨f, data, stream, c⟩ sz u hsz hu h308 hlen]

lemma patchLoop_continue_brk (delOut : DeleteOutcome) (r : BackendResp)
    (rest : List BackendResp) (fuel : Nat) (f : GCloudFile)
    (data stream : List Nat) (c : Nat) (sz : Int) (u : String) (d1 : List Nat)
    (hsz : f._size = some sz) (hu : f._resumable_uri = some u)
    (h308 : r.status = 308) (hne : data.isEmpty = false)
    (hd1 : d1 = pyDrop (parseRangeOffset r.rangeHeader - f._current_upload + 1) data)
    (hlt : d1.length < 262144) :
    patchLoop delOut (fuel + 1) (r :: rest) ⟨f, data, stream, c⟩ =
      LoopOut.finished
        ⟨{ f with _current_upload := parseRangeOffset r.rangeHeader }, d1, stream, c⟩
        [Ev.putChunk (contentRange f._current_upload data.length sz) data.length] := by
  subst hd1
  rw [patchLoop_cons delOut fuel r rest ⟨f, data, stream, c⟩ hne]
  rw [patchIter_continue_brk delOut r ⟨f, data, stream, c⟩ sz u hsz hu h308 hlt]

lemma patchLoop_400 (delOut : DeleteOutcome) (r : BackendResp)
    (rest : List BackendResp) (fuel : Nat) (f : GCloudFile)
    (data stream : List Nat) (c : Nat) (sz : Int) (u : String)
    (hsz : f._size = some sz) (hu : f._resumable_uri = some u)
    (h400 : r.status = 400) (hne : data.isEmpty = false) :
    patchLoop delOut (fuel + 1) (r :: rest) ⟨f, data, stream, c⟩ =
      LoopOut.finished ⟨f, pyDrop 1 data, stream, c⟩
        [Ev.putChunk (contentRange f._current_upload data.length sz) data.length] := by
  rw [patchLoop_cons delOut fuel r rest ⟨f, data, stream, c⟩ hne]
  rw [patchIter_400 delOut r ⟨f, data, stream, c⟩ sz u hsz hu h400]

/-- C1: the claim says that on a 308 Continue the accepted offset _current_upload is advanced to the number of bytes the backend has durably accepted. The code stores the raw end index parsed from the acknowledged-range header, which is one LESS than the accepted byte count (ackedBytes): a 308 with header bytes=0-99, acknowledging 100 accepted bytes, leaves _current_upload = 99. The comment at storage.py 226 (current_upload is one number less) records the same fact. This theorem evaluates appendData at that failing input. -/
theorem c1_append_308_offby_one :
    ((c1File.appendData (List.replicate 100 7) ⟨308, "bytes=0-99"⟩).map
      (fun fe => fe.1._current_upload) = some 99) ∧
    ackedBytes ⟨308, "bytes=0-99"⟩ = 100 ∧ (99 : Int) ≠ 100 := by
  refine ⟨?_, by decide, by decide⟩
  decide

/-- C2 counterexample: with a transient status 500 on every Append and a 262150-byte buffered chunk, five backend responses leave the loop still retrying: five chunk PUTs and no max-retries raise. The raise only happens with a sixth response, after six PUTs, so the claim that the loop fails after exactly 5 Append attempts is false (count must EXCEED MAX_RETRIES = 5). -/
theorem c2_counterexample :
    ((patchLoop DeleteOutcome.ok 10
        [⟨500, "x"⟩, ⟨500, "x"⟩, ⟨500, "x"⟩, ⟨500, "x"⟩, ⟨500, "x"⟩]
        ⟨c2File, List.replicate 262150 0, [], 0⟩).isMaxRetries = false ∧
      (patchLoop DeleteOutcome.ok 10
        [⟨500, "x"⟩, ⟨500, "x"⟩, ⟨500, "x"⟩, ⟨500, "x"⟩, ⟨500, "x"⟩]
        ⟨c2File, List.replicate 262150 0, [], 0⟩).evs.countP Ev.isPut = 5) ∧
    ((patchLoop DeleteOutcome.ok 10
        [⟨500, "x"⟩, ⟨500, "x"⟩, ⟨500, "x"⟩, ⟨500, "x"⟩, ⟨500, "x"⟩, ⟨500, "x"⟩]
        ⟨c2File, List.replicate 262150 0, [], 0⟩).isMaxRetries = true ∧
      (patchLoop DeleteOutcome.ok 10
        [⟨500, "x"⟩, ⟨500, "x"⟩, ⟨500, "x"⟩, ⟨500, "x"⟩, ⟨500, "x"⟩, ⟨500, "x"⟩]
        ⟨c2File, List.replicate 262150 0, [], 0⟩).evs.countP Ev.isPut = 6 ∧
      (patchLoop DeleteOutcome.ok 10
        [⟨500, "x"⟩, ⟨500, "x"⟩, ⟨500, "x"⟩, ⟨500, "x"⟩, ⟨500, "x"⟩, ⟨500, "x"⟩]
        ⟨c2File, List.replicate 262150 0, [], 0⟩).fileOffset = some 0) := by
  constructor
  · exact c2_loop_noraise DeleteOutcome.ok
      [⟨500, "x"⟩, ⟨500, "x"⟩, ⟨500, "x"⟩, ⟨500, "x"⟩, ⟨500, "x"⟩] 4 c2File 1000000 "sess"
      (List.replicate 262150 0) [] 0 rfl rfl (by decide)
      (by rw [List.length_replicate]; decide) (by decide)
  · exact c2_loop DeleteOutcome.ok
      [⟨500, "x"⟩, ⟨500, "x"⟩, ⟨500, "x"⟩, ⟨500, "x"⟩, ⟨500, "x"⟩, ⟨500, "x"⟩] [] 4
      c2File 1000000 "sess" (List.replicate 262150 0) [] 0 rfl rfl (by decide)
      (by rw [List.length_replicate]; decide) (by decide) (by decide)

/-- C2 amended: if the backend answers every Append with a transient status (neither 200/201 nor 308, and not 400, which ends the loop without raising) and the buffered chunk holds at least 262150 bytes (each transient pass trims one byte and a remainder under 262144 ends the loop), the Patch append loop raises the max-retries error after exactly 6 Append attempts, and the accepted offset is never advanced. -/
theorem c2_amended (delOut : DeleteOutcome) (f : GCloudFile) (sz : Int) (u : String)
    (data stream : List Nat) (r1 r2 r3 r4 r5 r6 : BackendResp)
    (rest : List BackendResp) (fuel : Nat)
    (hsz : f._size = some sz) (hu : f._resumable_uri = some u)
    (hlen : 262150 ≤ data.length)
    (ht : ∀ r ∈ [r1, r2, r3, r4, r5, r6],
      r.status ≠ 200 ∧ r.status ≠ 201 ∧ r.status ≠ 308 ∧ r.status ≠ 400) :
    (patchLoop delOut (fuel + 6) (r1 :: r2 :: r3 :: r4 :: r5 :: r6 :: rest)
        ⟨f, data, stream, 0⟩).isMaxRetries = true ∧
    (patchLoop delOut (fuel + 6) (r1 :: r2 :: r3 :: r4 :: r5 :: r6 :: rest)
        ⟨f, data, stream, 0⟩).evs.countP Ev.isPut = 6 ∧
    (patchLoop delOut (fuel + 6) (r1 :: r2 :: r3 :: r4 :: r5 :: r6 :: rest)
        ⟨f, data, stream, 0⟩).fileOffset = some f._current_upload := by
  exact c2_loop delOut [r1, r2, r3, r4, r5, r6] rest fuel f sz u data stream 0 hsz hu ht
    (by simp only [List.length_cons, List.length_nil]; omega) (by decide)
    (by simp only [List.length_cons, List.length_nil, MAX_RETRIES_eq])

/-- Witness for c2_amended at a concrete input: six 503 responses against a 262150-byte chunk. -/
theorem c2_witness :
    c2File._size = some 1000000 ∧
    (262150 ≤ (List.replicate 262150 (0 : Nat)).length) ∧
    ((patchLoop DeleteOutcome.httpError (0 + 6)
        ((⟨503, "y"⟩ : BackendResp) :: ⟨503, "y"⟩ :: ⟨503, "y"⟩ :: ⟨503, "y"⟩ :: ⟨503, "y"⟩ ::
          ⟨503, "y"⟩ :: [])
        ⟨c2File, List.replicate 262150 0, [], 0⟩).isMaxRetries = true ∧
      (patchLoop DeleteOutcome.httpError (0 + 6)
        ((⟨503, "y"⟩ : BackendResp) :: ⟨503, "y"⟩ :: ⟨503, "y"⟩ :: ⟨503, "y"⟩ :: ⟨503, "y"⟩ ::
          ⟨503, "y"⟩ :: [])
        ⟨c2File, List.replicate 262150 0, [], 0⟩).evs.countP Ev.isPut = 6 ∧
      (patchLoop DeleteOutcome.httpError (0 + 6)
        ((⟨503, "y"⟩ : BackendResp) :: ⟨503, "y"⟩ :: ⟨503, "y"⟩ :: ⟨503, "y"⟩ :: ⟨503, "y"⟩ ::
          ⟨503, "y"⟩ :: [])
        ⟨c2File, List.replicate 262150 0, [], 0⟩).fileOffset = some c2File._current_upload) :=
  ⟨rfl, by rw [List.length_replicate],
   c2_amended DeleteOutcome.httpError c2File 1000000 "sess" (List.replicate 262150 0) []
     ⟨503, "y"⟩ ⟨503, "y"⟩ ⟨503, "y"⟩ ⟨503, "y"⟩ ⟨503, "y"⟩ ⟨503, "y"⟩ [] 0 rfl rfl
     (by rw [List.length_replicate]) (by decide)⟩

/-- C3 counterexample: a successful Append answered 308 whose acknowledged range value 4 is below the current offset 100 decreases _current_upload from 100 to 4, so bytesAccepted is not unconditionally non-decreasing (the code applies the parsed value with no monotonicity check, and tus_patch likewise overwrites the offset with the client-declared Upload-Offset). -/
theorem c3_counterexample :
    c3File._current_upload = 100 ∧
    ((c3File.appendData [] ⟨308, "bytes=0-4"⟩).map
      (fun fe => fe.1._current_upload) = some 4) ∧
    ¬ (100 : Int) ≤ 4 := by
  refine ⟨rfl, by decide, by decide⟩

/-- C3 amended: provided every 308 acknowledgement lies between the offset current when it is applied and the declared size (okSeqB), a sequence of successful appendData calls keeps the accepted offset non-decreasing and never above the declared size (200/201 set it to exactly the declared size). -/
theorem c3_amended (rs : List BackendResp) (f : GCloudFile) (sz : Int) (u : String)
    (hsz : f._size = some sz) (hu : f._resumable_uri = some u)
    (hcur : f._current_upload ≤ sz) (hok : okSeqB sz f rs = true) :
    ∃ g, appendSeq f rs = some g ∧ f._current_upload ≤ g._current_upload ∧
      g._current_upload ≤ sz := by
  induction rs generalizing f with
  | nil => exact ⟨f, rfl, le_refl _, hcur⟩
  | cons r rs ih =>
    have happ := appendData_eq f [] r sz u hsz hu
    rw [okSeqB] at hok
    rw [happ] at hok
    have hok1 : respOkB sz f._current_upload r = true := by
      exact (Bool.and_eq_true ..).mp hok |>.1
    have hok2 := (Bool.and_eq_true ..).mp hok |>.2
    simp only at hok2
    rw [appendSeq, happ]
    by_cases hd : r.status = 200 ∨ r.status = 201
    · simp only [hd, if_true, if_pos] at hok2 ⊢
      obtain ⟨g, hg, h1, h2⟩ := ih { f with _current_upload := sz } hsz hu le_rfl hok2
      exact ⟨g, hg, le_trans hcur h1, h2⟩
    · by_cases h3 : r.status = 308
      · simp only [hd, h3, if_false, if_true] at hok2 ⊢
        have hb : f._current_upload ≤ parseRangeOffset r.rangeHeader ∧
            parseRangeOffset r.rangeHeader ≤ sz := by
          rw [respOkB, h3] at hok1
          simp at hok1
          exact hok1
        obtain ⟨g, hg, h1, h2⟩ :=
          ih { f with _current_upload := parseRangeOffset r.rangeHeader } hsz hu hb.2 hok2
        exact ⟨g, hg, le_trans hb.1 h1, h2⟩
      · simp only [hd, h3, if_false] at hok2 ⊢
        obtain ⟨g, hg, h1, h2⟩ := ih f hsz hu hcur hok2
        exact ⟨g, hg, h1, h2⟩

/-- Witness for c3_amended at a concrete input: a bounded 308 followed by a transient 500. -/
theorem c3_witness :
    (1 : Int) ≤ 10 ∧ okSeqB 10 { c3File with _current_upload := 1, _size := some 10 } [⟨308, "bytes=0-5"⟩, ⟨500, "z"⟩] = true ∧
    (∃ g, appendSeq { c3File with _current_upload := 1, _size := some 10 }
        [⟨308, "bytes=0-5"⟩, ⟨500, "z"⟩] = some g ∧
      (1 : Int) ≤ g._current_upload ∧ g._current_upload ≤ 10) :=
  ⟨by decide, by decide,
   c3_amended [⟨308, "bytes=0-5"⟩, ⟨500, "z"⟩]
     { c3File with _current_upload := 1, _size := some 10 } 10 "sess"
     (by decide) (by decide) (by decide) (by decide)⟩

/-- C4 counterexample: after a Continue (308) that consumed 262144 of 524288 buffered bytes, the loop reads 262144 further bytes from the client (the clientRead event between the two chunk PUTs) even though 262144 unconsumed bytes remained buffered; the claim that the remainder is immediately retried without re-reading from the client is false. -/
theorem c4_counterexample :
    (patchLoop DeleteOutcome.ok 2 [⟨308, "bytes=0-262143"⟩, ⟨400, "x"⟩]
      ⟨c4File, List.replicate 524288 0, List.replicate 262144 1, 0⟩).evs.map evKind
      = [0, 2, 0] ∧
    (patchLoop DeleteOutcome.ok 2 [⟨308, "bytes=0-262143"⟩, ⟨400, "x"⟩]
      ⟨c4File, List.replicate 524288 0, List.replicate 262144 1, 0⟩).evs.get? 1
      = some (Ev.clientRead 262144 262144) := by
  have hp : parseRangeOffset "bytes=0-262143" = 262143 := by decide
  have hcur : c4File._current_upload = 0 := rfl
  have hd1 : (List.replicate 262144 (0 : Nat)) =
      pyDrop (parseRangeOffset "bytes=0-262143" - c4File._current_upload + 1)
        (List.replicate 524288 0) := by
    rw [hp, hcur]
    rw [(by norm_num : (262143 : Int) - 0 + 1 = 262144)]
    rw [pyDrop]
    rw [if_pos (by norm_num : (0 : Int) ≤ 262144)]
    rw [(by decide : Int.toNat 262144 = 262144)]
    rw [List.drop_replicate]
  have hne1 : (List.replicate 524288 (0 : Nat)).isEmpty = false := by
    rw [isEmpty_eq_decide, List.length_replicate]
    decide
  rw [(by norm_num : (2 : Nat) = 1 + 1)]
  rw [patchLoop_continue DeleteOutcome.ok ⟨308, "bytes=0-262143"⟩ [⟨400, "x"⟩] 1 c4File
    (List.replicate 524288 0) (List.replicate 262144 1) 0 1000000 "sess"
    (List.replicate 262144 0) rfl rfl rfl hne1 hd1
    (by rw [List.length_replicate])]
  have hne2 : (List.replicate 262144 (0 : Nat) ++
      (List.replicate 262144 (1 : Nat)).take (List.replicate 262144 (0 : Nat)).length).isEmpty
      = false := by
    rw [isEmpty_eq_decide, List.length_append, List.length_replicate, List.length_take,
      List.length_replicate]
    decide
  rw [patchLoop_400 DeleteOutcome.ok ⟨400, "x"⟩ [] 0
    { c4File with _current_upload := parseRangeOffset "bytes=0-262143" }
    (List.replicate 262144 0 ++
      (List.replicate 262144 1).take (List.replicate 262144 (0 : Nat)).length)
    ((List.replicate 262144 (1 : Nat)).drop (List.replicate 262144 (0 : Nat)).length)
    0 1000000 "sess" rfl rfl rfl hne2]
  constructor
  · simp only [prependEvs, LoopOut.evs, List.map, evKind, List.cons_append, List.nil_append]
  · simp only [prependEvs, LoopOut.evs, List.cons_append, List.nil_append,
      List.length_replicate, List.length_take, List.get?]
    rw [(by decide : (262144 : Nat) ⊓ 262144 = 262144)]

/-- C4 amended: after a Continue the consumed prefix (acknowledged offset minus previous offset plus one bytes, per the gcloud off-by-one compensation) is discarded from the buffer; if at least 262144 bytes remain, the loop reads len(remainder) additional bytes from the client, appends them, and retries the enlarged buffer; with fewer remaining bytes (zero included) the loop exits without retrying and without reading. -/
theorem c4_amended (delOut : DeleteOutcome) (r : BackendResp)
    (rest : List BackendResp) (fuel : Nat) (f : GCloudFile)
    (data stream : List Nat) (c : Nat) (sz : Int) (u : String) (d1 : List Nat)
    (hsz : f._size = some sz) (hu : f._resumable_uri = some u)
    (h308 : r.status = 308) (hne : data.isEmpty = false)
    (hd1 : d1 = pyDrop (parseRangeOffset r.rangeHeader - f._current_upload + 1) data) :
    (262144 ≤ d1.length →
      patchLoop delOut (fuel + 1) (r :: rest) ⟨f, data, stream, c⟩ =
        prependEvs
          [Ev.putChunk (contentRange f._current_upload data.length sz) data.length,
           Ev.clientRead d1.length (stream.take d1.length).length]
          (patchLoop delOut fuel rest
            ⟨{ f with _current_upload := parseRangeOffset r.rangeHeader },
             d1 ++ stream.take d1.length, stream.drop d1.length, 0⟩)) ∧
    (d1.length < 262144 →
      patchLoop delOut (fuel + 1) (r :: rest) ⟨f, data, stream, c⟩ =
        LoopOut.finished
          ⟨{ f with _current_upload := parseRangeOffset r.rangeHeader }, d1, stream, c⟩
          [Ev.putChunk (contentRange f._current_upload data.length sz) data.length]) :=
  ⟨fun hlen => patchLoop_continue delOut r rest fuel f data stream c sz u d1
      hsz hu h308 hne hd1 hlen,
   fun hlt => patchLoop_continue_brk delOut r rest fuel f data stream c sz u d1
      hsz hu h308 hne hd1 hlt⟩

/-- Witness for c4_amended: the exit branch applied at a 308 that consumes the whole 100-byte buffer. -/
theorem c4_witness :
    ((⟨308, "bytes=0-99"⟩ : BackendResp).status = 308) ∧
    (List.replicate 100 (0 : Nat)).isEmpty = false ∧
    (([] : List Nat) =
      pyDrop (parseRangeOffset "bytes=0-99" - c4File._current_upload + 1)
        (List.replicate 100 0)) ∧
    (([] : List Nat).length < 262144 →
      patchLoop DeleteOutcome.ok (3 + 1) (⟨308, "bytes=0-99"⟩ :: [])
          ⟨c4File, List.replicate 100 0, [], 0⟩ =
        LoopOut.finished
          ⟨{ c4File with _current_upload := parseRangeOffset "bytes=0-99" }, [], [], 0⟩
          [Ev.putChunk
            (contentRange c4File._current_upload (List.replicate 100 (0 : Nat)).length 1000000)
            (List.replicate 100 (0 : Nat)).length]) :=
  ⟨rfl, by decide, by decide,
   (c4_amended DeleteOutcome.ok ⟨308, "bytes=0-99"⟩ [] 3 c4File
     (List.replicate 100 0) [] 0 1000000 "sess" [] rfl rfl rfl (by decide)
     (by decide)).2⟩

/-- C5 counterexample: initUpload fails identically for an auth-related 401 and a non-auth 500 with the same body: one GoogleCloudException carrying the response body in both cases, so no distinct BackendAuthError exists in the code. -/
theorem c5_counterexample :
    (GCloudFile.new "ct").initUpload "new" ⟨401, "denied", "loc"⟩ 5 DeleteOutcome.ok =
      (GCloudFile.new "ct").initUpload "new" ⟨500, "denied", "loc"⟩ 5 DeleteOutcome.ok ∧
    ((GCloudFile.new "ct").initUpload "new" ⟨401, "denied", "loc"⟩ 5 DeleteOutcome.ok).err =
      some "denied" := by
  exact ⟨by decide, by decide⟩

/-- C5 amended: on any status other than 200, initUpload raises the single GoogleCloudException type carrying the backend response body (auth-related or not); on 200 it stores the Location header as the resumable session URI and resets the accepted offset to 0. -/
theorem c5_amended (f : GCloudFile) (newId : String) (resp : InitResp) (now : Int)
    (delOut : DeleteOutcome) :
    (resp.status ≠ 200 → (f.initUpload newId resp now delOut).err = some resp.body) ∧
    (resp.status = 200 → (f.initUpload newId resp now delOut).err = none ∧
      (f.initUpload newId resp now delOut).file._resumable_uri = some resp.location ∧
      (f.initUpload newId resp now delOut).file._current_upload = 0) := by
  constructor
  · intro h
    simp [GCloudFile.initUpload, h]
  · intro h
    simp [GCloudFile.initUpload, h]

/-- Witness for c5_amended at concrete 500 and 200 responses. -/
theorem c5_witness :
    ((GCloudFile.new "x").initUpload "n" ⟨500, "b", "l"⟩ 0 DeleteOutcome.ok).err = some "b" ∧
    (((GCloudFile.new "x").initUpload "n" ⟨200, "b", "l"⟩ 0 DeleteOutcome.ok).err = none ∧
      ((GCloudFile.new "x").initUpload "n" ⟨200, "b", "l"⟩ 0 DeleteOutcome.ok).file._resumable_uri = some "l" ∧
      ((GCloudFile.new "x").initUpload "n" ⟨200, "b", "l"⟩ 0 DeleteOutcome.ok).file._current_upload = 0) :=
  ⟨(c5_amended (GCloudFile.new "x") "n" ⟨500, "b", "l"⟩ 0 DeleteOutcome.ok).1 (by decide),
   (c5_amended (GCloudFile.new "x") "n" ⟨200, "b", "l"⟩ 0 DeleteOutcome.ok).2 rfl⟩

/-- C6: tus_create (when not delegated by the method override) raises the missing-header error when UPLOAD-LENGTH is absent, and tus_patch raises it when CONTENT-LENGTH or UPLOAD-OFFSET is absent; in every failing case the emitted event trace is empty, i.e. the operation raises before any backend call. -/
theorem c6_missing_headers :
    (∀ (file? : Option GCloudFile) (rct : String) (chs : TusCreateHeaders)
       (phs : TusPatchHeaders) (stream : List Nat) (resps : List BackendResp)
       (fuel : Nat) (delOut : DeleteOutcome) (newId genName : String)
       (b64 : String → String) (initResp : InitResp) (now : Int)
       (baseUrl fieldName : String),
      chs.methodOverride ≠ some "PATCH" → chs.uploadLength = none →
      tus_create file? rct chs phs stream resps fuel delOut newId genName b64
          initResp now baseUrl fieldName =
        CreateOut.err CreateErr.noUploadLength []) ∧
    (∀ (file? : Option GCloudFile) (hs : TusPatchHeaders) (stream : List Nat)
       (resps : List BackendResp) (fuel : Nat) (delOut : DeleteOutcome),
      hs.contentLength = none →
      tus_patch file? hs stream resps fuel delOut =
        PatchOut.err PatchErr.noContentLength []) ∧
    (∀ (file? : Option GCloudFile) (hs : TusPatchHeaders) (stream : List Nat)
       (resps : List BackendResp) (fuel : Nat) (delOut : DeleteOutcome) (n : Int),
      hs.contentLength = some n → hs.uploadOffset = none →
      tus_patch file? hs stream resps fuel delOut =
        PatchOut.err PatchErr.noUploadOffset []) := by
  refine ⟨?_, ?_, ?_⟩
  · intro file? rct chs phs stream resps fuel delOut newId genName b64 initResp
      now baseUrl fieldName hov hlen
    unfold tus_create
    rw [if_neg hov, hlen]
  · intro file? hs stream resps fuel delOut hcl
    unfold tus_patch
    rw [hcl]
  · intro file? hs stream resps fuel delOut n hcl hoff
    unfold tus_patch
    rw [hcl, hoff]

/-- Witness for c6_missing_headers at concrete header sets. -/
theorem c6_witness :
    (TusCreateHeaders.mk none none none none none none none).methodOverride ≠ some "PATCH" ∧
    (TusCreateHeaders.mk none none none none none none none).uploadLength = none ∧
    tus_create none "ct" (TusCreateHeaders.mk none none none none none none none)
        ⟨none, none⟩ [] [] 0 DeleteOutcome.ok "i" "g" id ⟨200, "", "l"⟩ 0 "b" "f" =
      CreateOut.err CreateErr.noUploadLength [] ∧
    tus_patch none ⟨none, none⟩ [] [] 0 DeleteOutcome.ok =
      PatchOut.err PatchErr.noContentLength [] ∧
    tus_patch none ⟨some 3, none⟩ [] [] 0 DeleteOutcome.ok =
      PatchOut.err PatchErr.noUploadOffset [] :=
  ⟨by decide, rfl,
   c6_missing_headers.1 none "ct" (TusCreateHeaders.mk none none none none none none none)
     ⟨none, none⟩ [] [] 0 DeleteOutcome.ok "i" "g" id ⟨200, "", "l"⟩ 0 "b" "f"
     (by decide) rfl,
   c6_missing_headers.2.1 none ⟨none, none⟩ [] [] 0 DeleteOutcome.ok rfl,
   c6_missing_headers.2.2 none ⟨some 3, none⟩ [] [] 0 DeleteOutcome.ok 3 rfl rfl⟩

/-- C7: if the client stream holds fewer bytes than the declared CONTENT-LENGTH, tus_patch behaves exactly as if the declared count were the delivered length: the caught IncompleteReadError leaves the partial data to be fed to the append loop as-is, with no error for the short read. -/
theorem c7_short_read (file? : Option GCloudFile) (hs : TusPatchHeaders)
    (stream : List Nat) (resps : List BackendResp) (fuel : Nat)
    (delOut : DeleteOutcome) (n : Int)
    (hcl : hs.contentLength = some n) (hshort : stream.length ≤ n.toNat) :
    tus_patch file? hs stream resps fuel delOut =
      tus_patch file? ⟨some (stream.length : Int), hs.uploadOffset⟩ stream resps
        fuel delOut := by
  unfold tus_patch
  rw [hcl]
  simp only
  rw [readExactly, readExactly]
  rw [List.take_of_length_le hshort, List.drop_eq_nil_of_le hshort]
  rw [Int.toNat_natCast, List.take_length, List.drop_length]

/-- Witness for c7_short_read: a 3-byte stream against a declared count of 10. -/
theorem c7_witness :
    ((⟨some 10, some 0⟩ : TusPatchHeaders).contentLength = some 10) ∧
    ([1, 2, 3] : List Nat).length ≤ (10 : Int).toNat ∧
    tus_patch none ⟨some 10, some 0⟩ [1, 2, 3] [] 2 DeleteOutcome.ok =
      tus_patch none ⟨some (([1, 2, 3] : List Nat).length : Int), some 0⟩ [1, 2, 3] [] 2
        DeleteOutcome.ok :=
  ⟨rfl, by decide,
   c7_short_read none ⟨some 10, some 0⟩ [1, 2, 3] [] 2 DeleteOutcome.ok 10 rfl (by decide)⟩

/-- C8: finishUpload always succeeds: its result does not depend on the outcome of the best-effort delete (errors.HttpError is swallowed), it sets the finalized key _uri to the pending key and clears the pending key, and it emits the delete of the previously committed object when one exists; initUpload is likewise insensitive to the outcome of its opportunistic delete of a previous pending object. -/
theorem c8_best_effort :
    (∀ (f : GCloudFile) (o : DeleteOutcome),
      f.finishUpload o = f.finishUpload DeleteOutcome.ok) ∧
    (∀ (f : GCloudFile) (o : DeleteOutcome),
      (f.finishUpload o).1._uri = f._upload_file_id ∧
      (f.finishUpload o).1._upload_file_id = none) ∧
    (∀ (f : GCloudFile) (o : DeleteOutcome) (k : String),
      f._uri = some k → (f.finishUpload o).2 = [Ev.deleteObject k]) ∧
    (∀ (f : GCloudFile) (newId : String) (resp : InitResp) (now : Int) (o : DeleteOutcome),
      f.initUpload newId resp now o = f.initUpload newId resp now DeleteOutcome.ok) := by
  refine ⟨fun f o => rfl, fun f o => ⟨rfl, rfl⟩, fun f o k h => ?_, fun f newId resp now o => rfl⟩
  simp [GCloudFile.finishUpload, h]

/-- Witness for the delete-emission part of c8_best_effort at a concrete file. -/
theorem c8_witness :
    ( { GCloudFile.new "ct" with _uri := some "old" } : GCloudFile)._uri = some "old" ∧
    (( { GCloudFile.new "ct" with _uri := some "old" } : GCloudFile).finishUpload
      DeleteOutcome.httpError).2 = [Ev.deleteObject "old"] :=
  ⟨rfl, c8_best_effort.2.2.1 { GCloudFile.new "ct" with _uri := some "old" }
    DeleteOutcome.httpError "old" rfl⟩

/-- C9: tus_head omits the Upload-Length header when the declared size is 0, because the size property value is only reported when truthy, and includes it for every non-zero known size. -/
theorem c9_head_upload_length (f : GCloudFile) :
    (f._size = some 0 → tus_head (some f) =
      Except.ok ⟨f._current_upload, none⟩) ∧
    (∀ n : Int, f._size = some n → n ≠ 0 → tus_head (some f) =
      Except.ok ⟨f._current_upload, some n⟩) := by
  constructor
  · intro h
    simp [tus_head, GCloudFile.size, GCloudFile.actualSize, pyTruthy, h]
  · intro n h hn
    simp [tus_head, GCloudFile.size, GCloudFile.actualSize, pyTruthy, h, hn]

/-- Witness for c9_head_upload_length at sizes 0 and 42. -/
theorem c9_witness :
    tus_head (some { GCloudFile.new "ct" with _size := some 0 }) =
      Except.ok ⟨0, none⟩ ∧
    tus_head (some { GCloudFile.new "ct" with _size := some 42 }) =
      Except.ok ⟨0, some 42⟩ :=
  ⟨(c9_head_upload_length { GCloudFile.new "ct" with _size := some 0 }).1 rfl,
   (c9_head_upload_length { GCloudFile.new "ct" with _size := some 42 }).2 42 rfl (by decide)⟩

/-- C10: a Create request carrying X-HTTP-Method-Override with value PATCH is not processed as a session creation: tus_create returns exactly the tus_patch result for the same request, not a 201 created response. -/
theorem c10_create_delegates (file? : Option GCloudFile) (rct : String)
    (chs : TusCreateHeaders) (phs : TusPatchHeaders) (stream : List Nat)
    (resps : List BackendResp) (fuel : Nat) (delOut : DeleteOutcome)
    (newId genName : String) (b64 : String → String) (initResp : InitResp)
    (now : Int) (baseUrl fieldName : String)
    (h : chs.methodOverride = some "PATCH") :
    tus_create file? rct chs phs stream resps fuel delOut newId genName b64
        initResp now baseUrl fieldName =
      CreateOut.patched (tus_patch file? phs stream resps fuel delOut) := by
  unfold tus_create
  rw [if_pos h]

/-- Witness for c10_create_delegates at a concrete request. -/
theorem c10_witness :
    (TusCreateHeaders.mk (some "PATCH") none none none none none none).methodOverride =
      some "PATCH" ∧
    tus_create none "ct" (TusCreateHeaders.mk (some "PATCH") none none none none none none)
        ⟨none, none⟩ [] [] 0 DeleteOutcome.ok "i" "g" id ⟨200, "", "l"⟩ 0 "b" "f" =
      CreateOut.patched (tus_patch none ⟨none, none⟩ [] [] 0 DeleteOutcome.ok) :=
  ⟨rfl,
   c10_create_delegates none "ct"
     (TusCreateHeaders.mk (some "PATCH") none none none none none none)
     ⟨none, none⟩ [] [] 0 DeleteOutcome.ok "i" "g" id ⟨200, "", "l"⟩ 0 "b" "f" rfl⟩

end GCloud
